import Mathlib

/-!
Verification development for the gimirrai metadata-extraction core.

This file gives a shallow embedding of the two algorithmic components of the
repository:

* `src/gimirrai/decoders/klv.py` — the KLV byte-stream decoder
  (`_decode_metadata`, the tag table `TAG_FORMATS`, and the field transforms
  `_decode_string`, `_decode_latitude_coordinate`, `_decode_longitude_coordinate`,
  `_decode_timestamp`), and
* `src/gimirrai/reader.py` — the georeference assembler (the per-image body of
  `get_gimi_metadata`) and the virtual-raster generator (`get_vrt`).

Byte buffers are modelled as `List ℕ` (each element a byte value), Python
floats as `ℚ` (every arithmetic fact proved below is exact in the rationals,
and each claimed constant is the correctly rounded value of an exact rational
operation), Python `dict` as an insertion-ordered association list, and Python
exceptions as `Except` errors.
-/

/-- Errors raised by the decoder: `structError` models Python's `struct.error`
(raised by `struct.unpack` when the supplied bytes do not match the format's
size, including reads past the end of the buffer), `unicodeError` models
`UnicodeDecodeError` from `bytes.decode("utf-8")`. -/
inductive DecodeErr
  | structError
  | unicodeError
deriving DecidableEq, Repr

/-- A decoded domain value stored in the result mapping: a UTF-8 string (kept
as its validated byte sequence), an angle in degrees, a timestamp (absent when
the decode overflowed), or a raw unsigned integer. -/
inductive FieldValue
  | str : List ℕ → FieldValue
  | angle : ℚ → FieldValue
  | timestamp : Option ℕ → FieldValue
  | uint : ℕ → FieldValue
deriving DecidableEq, Repr

/-- The decoded field map: models the Python `dict` built by
`_decode_metadata`, as an insertion-ordered association list with unique
keys. -/
abbrev FieldMap := List (String × FieldValue)

/-- Membership test for a key, modelling Python's `name in result`. -/
def containsKey : FieldMap → String → Bool
  | [], _ => false
  | (k', _) :: rest, k => if k' = k then true else containsKey rest k

/-- Lookup of a key, modelling Python's `result[name]` / `result.get(name)`. -/
def lookupField : FieldMap → String → Option FieldValue
  | [], _ => none
  | (k', v) :: rest, k => if k' = k then some v else lookupField rest k

/-- Dictionary assignment `result[name] = value`: replaces the value in place
when the key exists, otherwise appends the new pair. -/
def insertField : FieldMap → String → FieldValue → FieldMap
  | [], k, v => [(k, v)]
  | (k', v') :: rest, k, v =>
      if k' = k then (k, v) :: rest else (k', v') :: insertField rest k v

/-- Big-endian interpretation of a byte sequence, as performed by
`struct.unpack` with the `>` prefix. -/
def beNat (bs : List ℕ) : ℕ := bs.foldl (fun a b => 256 * a + b) 0

/-- Two's-complement reinterpretation of a 32-bit unsigned value, as performed
by `struct.unpack` for the signed `l` format. -/
def signed_int32 (n : ℕ) : ℤ :=
  if n < 2147483648 then (n : ℤ) else (n : ℤ) - 4294967296

/-- Wire formats appearing in `TAG_FORMATS`: `Q` = uint64, `s` = char array of
the field's declared size, `l` = int32, `B` = uint8, `H` = uint16. -/
inductive WireFormat
  | Q
  | s
  | l
  | B
  | H
deriving DecidableEq, Repr

/-- Number of bytes `struct.unpack` requires for a format (`struct.calcsize`);
for the `s` format the Python code rewrites the format string to
`f"{size}s"`, so its size is the declared field size. -/
def calcsize : WireFormat → ℕ → ℕ
  | .Q, _ => 8
  | .s, size => size
  | .l, _ => 4
  | .B, _ => 1
  | .H, _ => 2

/-- The raw scalar produced by `struct.unpack` before any transform. -/
inductive RawValue
  | rNat : ℕ → RawValue
  | rInt : ℤ → RawValue
  | rBytes : List ℕ → RawValue
deriving DecidableEq, Repr

/-- Unpack the raw bytes of a field according to its wire format (the byte
count has already been checked against `calcsize`). -/
def unpack_value : WireFormat → List ℕ → RawValue
  | .Q, bs => .rNat (beNat bs)
  | .s, bs => .rBytes bs
  | .l, bs => .rInt (signed_int32 (beNat bs))
  | .B, bs => .rNat (beNat bs)
  | .H, bs => .rNat (beNat bs)

/-- Decode the parsed KLV latitude coordinate (MISB ST0601 section 8.82):
`latitude_degrees = (180 / 4_294_967_294) * lat_value`. -/
def decode_latitude_coordinate (lat_value : ℤ) : ℚ :=
  (180 / 4294967294 : ℚ) * lat_value

/-- Decode the parsed KLV longitude coordinate (MISB ST0601 section 8.83):
`longitude_degrees = (360 / 4_294_967_294) * lon_value`. -/
def decode_longitude_coordinate (lon_value : ℤ) : ℚ :=
  (360 / 4294967294 : ℚ) * lon_value

/-- Largest microseconds-since-epoch value representable as a Python
`datetime`: `datetime.max` is 9999-12-31T23:59:59.999999, i.e.
253402300799999999 microseconds after 1970-01-01T00:00:00Z. -/
def MAX_TIMESTAMP : ℕ := 253402300799999999

/-- Decode the parsed KLV precision time stamp (MISB ST0601 section 8.2):
`epoch + timedelta(microseconds=microsecond_value)`, identified with the
microsecond count itself. The addition raises `OverflowError` exactly when the
result would exceed `datetime.max`; the exception handler yields `None`. -/
def decode_timestamp (microsecond_value : ℕ) : Option ℕ :=
  if microsecond_value ≤ MAX_TIMESTAMP then some microsecond_value else none

/-- Continuation-byte test for strict UTF-8 validation. -/
def utf8_cont (b : ℕ) : Bool := 128 ≤ b && b ≤ 191

/-- Strict UTF-8 validity, as enforced by Python's `bytes.decode("utf-8")`:
rejects overlong encodings, surrogates and values above U+10FFFF. -/
def validUTF8 : List ℕ → Bool
  | [] => true
  | b0 :: rest =>
    if b0 ≤ 127 then validUTF8 rest
    else if 194 ≤ b0 && b0 ≤ 223 then
      match rest with
      | b1 :: rest2 => utf8_cont b1 && validUTF8 rest2
      | _ => false
    else if b0 = 224 then
      match rest with
      | b1 :: b2 :: rest3 => (160 ≤ b1 && b1 ≤ 191) && utf8_cont b2 && validUTF8 rest3
      | _ => false
    else if (225 ≤ b0 && b0 ≤ 236) || b0 = 238 || b0 = 239 then
      match rest with
      | b1 :: b2 :: rest3 => utf8_cont b1 && utf8_cont b2 && validUTF8 rest3
      | _ => false
    else if b0 = 237 then
      match rest with
      | b1 :: b2 :: rest3 => (128 ≤ b1 && b1 ≤ 159) && utf8_cont b2 && validUTF8 rest3
      | _ => false
    else if b0 = 240 then
      match rest with
      | b1 :: b2 :: b3 :: rest4 =>
          (144 ≤ b1 && b1 ≤ 191) && utf8_cont b2 && utf8_cont b3 && validUTF8 rest4
      | _ => false
    else if 241 ≤ b0 && b0 ≤ 243 then
      match rest with
      | b1 :: b2 :: b3 :: rest4 =>
          utf8_cont b1 && utf8_cont b2 && utf8_cont b3 && validUTF8 rest4
      | _ => false
    else if b0 = 244 then
      match rest with
      | b1 :: b2 :: b3 :: rest4 =>
          (128 ≤ b1 && b1 ≤ 143) && utf8_cont b2 && utf8_cont b3 && validUTF8 rest4
      | _ => false
    else false

/-- Decode raw bytes as UTF-8 text (`_decode_string`); a decode failure is a
hard error. The string is kept as its (validated) byte sequence, which
determines it uniquely since UTF-8 encoding is injective. -/
def decode_string (value : List ℕ) : Except DecodeErr (List ℕ) :=
  if validUTF8 value then .ok value else .error .unicodeError

/-- The optional value-transform attached to a tag table entry (`None` or one
of the `_decode_*` functions of the source). -/
inductive DecoderKind
  | dNone
  | dString
  | dLatitude
  | dLongitude
  | dTimestamp
deriving DecidableEq, Repr

/-- Apply a tag's transform to the unpacked raw value, producing the stored
field value (`result[name] = decoder(value)` or `result[name] = value`). The
mismatched combinations do not occur for any entry of `TAG_FORMATS`. -/
def apply_decoder : DecoderKind → RawValue → Except DecodeErr FieldValue
  | .dNone, .rNat n => .ok (.uint n)
  | .dString, .rBytes bs =>
      match decode_string bs with
      | .ok s => .ok (.str s)
      | .error e => .error e
  | .dLatitude, .rInt z => .ok (.angle (decode_latitude_coordinate z))
  | .dLongitude, .rInt z => .ok (.angle (decode_longitude_coordinate z))
  | .dTimestamp, .rNat n => .ok (.timestamp (decode_timestamp n))
  | _, _ => .error .structError

/-- The tag table `TAG_FORMATS` of the source: a map from one-byte tag id to
(field name, wire format, optional transform). -/
def TAG_FORMATS : ℕ → Option (String × WireFormat × DecoderKind) :=
  fun tag =>
    match tag with
    | 2 => some ("begin_position", .Q, .dTimestamp)
    | 3 => some ("title", .s, .dString)
    | 82 => some ("pt1_north_bound_latitude", .l, .dLatitude)
    | 83 => some ("pt1_west_bound_longitude", .l, .dLongitude)
    | 84 => some ("pt2_north_bound_latitude", .l, .dLatitude)
    | 85 => some ("pt2_east_bound_longitude", .l, .dLongitude)
    | 86 => some ("pt3_south_bound_latitude", .l, .dLatitude)
    | 87 => some ("pt3_east_bound_longitude", .l, .dLongitude)
    | 88 => some ("pt4_south_bound_latitude", .l, .dLatitude)
    | 89 => some ("pt4_west_bound_longitude", .l, .dLongitude)
    | 65 => some ("st0601_version", .B, .dNone)
    | 1 => some ("checksum", .H, .dNone)
    | _ => none

instance {ε α : Type} [DecidableEq ε] [DecidableEq α] : DecidableEq (Except ε α) :=
  fun a b =>
    match a, b with
    | .ok x, .ok y =>
        if h : x = y then isTrue (by rw [h]) else isFalse (fun hc => h (Except.ok.inj hc))
    | .error x, .error y =>
        if h : x = y then isTrue (by rw [h]) else isFalse (fun hc => h (Except.error.inj hc))
    | .ok _, .error _ => isFalse (fun hc => Except.noConfusion hc)
    | .error _, .ok _ => isFalse (fun hc => Except.noConfusion hc)

/-- Outcome of one iteration of the decode loop: either the loop body raised
or finished (`done`), or it continues with an updated buffer remainder and
result map (`next`). -/
inductive StepResult
  | done : Except DecodeErr FieldMap → StepResult
  | next : List ℕ → FieldMap → StepResult
deriving DecidableEq, Repr

/-- One iteration of the `while` body of `_decode_metadata`. The buffer is
represented by its unread remainder (the cursor advances by dropping bytes):
read the tag byte; a tag ≥ 128 is skipped (nothing further is read); an
unknown tag is skipped without reading its length byte; for a known tag, read
the length byte, and when it is < 128 read `size` bytes (`buff.read(size)`
returns at most `size` bytes), unpack them — `struct.unpack` fails unless the
byte count equals `calcsize` — apply the transform, and store the value. -/
def decode_step (buff : List ℕ) (result : FieldMap) : StepResult :=
  match buff with
  | [] => .done (.error .structError)
  | tag :: rest =>
    if tag < 128 then
      match TAG_FORMATS tag with
      | none => .next rest result
      | some (name, format_, decoder) =>
        match rest with
        | [] => .done (.error .structError)
        | size :: rest2 =>
          if size < 128 then
            let raw := rest2.take size
            if raw.length = calcsize format_ size then
              match apply_decoder decoder (unpack_value format_ raw) with
              | .ok v => .next (rest2.drop size) (insertField result name v)
              | .error e => .done (.error e)
            else .done (.error .structError)
          else .next rest2 result
    else .next rest result

/-- The `while` loop of `_decode_metadata`: loop while `"checksum"` has not
been decoded and `num_iterations < max_iterations`; `fuel` is the number of
iterations still allowed (`max_iterations - num_iterations`) and the second
component of the value is the final `num_iterations` counter. -/
def decode_loop (fuel : ℕ) (buff : List ℕ) (result : FieldMap)
    (num_iterations : ℕ) : Except DecodeErr FieldMap × ℕ :=
  if containsKey result "checksum" then (.ok result, num_iterations)
  else
    match fuel with
    | 0 => (.ok result, num_iterations)
    | fuel' + 1 =>
      match decode_step buff result with
      | .done r => (r, num_iterations)
      | .next buff' result' => decode_loop fuel' buff' result' (num_iterations + 1)

/-- `_decode_metadata`: decode a KLV byte buffer into a field map, with the
iteration bound `max_iterations = 1_000`. -/
def decode_metadata (buff : List ℕ) : Except DecodeErr FieldMap :=
  (decode_loop 1000 buff [] 0).1

/-! ## Georeference assembler (`src/gimirrai/reader.py`, `get_gimi_metadata`) -/

/-- Error raised by the assembler: `keyError` models the `KeyError` raised by
`klv_meta["..."]` when a required georeferencing field is absent from the
decoded field map (a value of an unexpected shape under one of these keys,
which cannot be produced by the decoder, is reported the same way). -/
inductive AssembleErr
  | keyError
deriving DecidableEq, Repr

/-- The `rasterio.Affine` six-coefficient transform
`(a, b, c, d, e, f)`: `x = a * col + b * row + c`, `y = d * col + e * row + f`,
so `c`/`f` are the origin and `b`/`d` the rotation terms. -/
structure Affine where
  a : ℚ
  b : ℚ
  c : ℚ
  d : ℚ
  e : ℚ
  f : ℚ
deriving DecidableEq, Repr

/-- `rasterio.Affine.from_gdal(c, a, b, f, d, e)`: build an affine transform
from a GDAL geotransform (origin x, pixel width, row rotation, origin y,
column rotation, pixel height). -/
def Affine.from_gdal (c a b f d e : ℚ) : Affine := ⟨a, b, c, d, e, f⟩

/-- `Affine.to_gdal()`: the six coefficients back in GDAL order. -/
def Affine.to_gdal (t : Affine) : List ℚ := [t.c, t.a, t.b, t.f, t.d, t.e]

/-- A `rasterio.control.GroundControlPoint`, recording the constructor
arguments used by the source (`row`, `col`, `x`, `y`) together with the
per-point identifier, which the external library fills with a fresh UUID when
none is given. -/
structure GroundControlPoint where
  row : ℕ
  col : ℕ
  x : ℚ
  y : ℚ
  id : String
deriving DecidableEq, Repr

/-- The bounding polygon built by `shapely.geometry.box(...)`, recorded by the
four keyword arguments the source passes to it. -/
structure Box where
  minx : ℚ
  miny : ℚ
  maxx : ℚ
  maxy : ℚ
deriving DecidableEq, Repr

/-- `shapely.geometry.box(minx=..., miny=..., maxx=..., maxy=...)`. -/
def shapely_box (minx miny maxx maxy : ℚ) : Box := ⟨minx, miny, maxx, maxy⟩

/-- `GimiBandData`: per-band descriptor sourced from the external raster
library. -/
structure GimiBandData where
  index : ℕ
  dtype : String
  no_data_value : Option ℤ
  units : Option String
deriving DecidableEq, Repr

/-- `GimiImageMetadata`: the per-frame record assembled by
`get_gimi_metadata`. -/
structure GimiImageMetadata where
  affine : Affine
  bands : List (ℕ × GimiBandData)
  bbox : Box
  begin_position : Option ℕ
  crs : ℕ
  gcps : List GroundControlPoint
  height : ℕ
  lower_right_lon : ℚ
  lower_right_lat : ℚ
  title : List ℕ
  upper_left_lon : ℚ
  upper_left_lat : ℚ
  width : ℕ
  x_resolution : ℚ
  y_resolution : ℚ
deriving DecidableEq, Repr

/-- Read one of the angular georeferencing fields out of the decoded field
map: `klv_meta[name]`, which for these keys always holds a value produced by
`_decode_latitude_coordinate` / `_decode_longitude_coordinate`. -/
def get_angle (klv_meta : FieldMap) (name : String) : Option ℚ :=
  match lookupField klv_meta name with
  | some (.angle q) => some q
  | _ => none

/-- The per-image body of `get_gimi_metadata`: from one frame's decoded field
map and pixel dimensions, build the `GimiImageMetadata` record. `bands` comes
from the external raster library and `gcp_id` models the external UUID source
that `rasterio.control.GroundControlPoint` invokes for each of the four
points' identifiers. Evaluating `klv_meta["pt3_east_bound_longitude"]`,
`klv_meta["pt1_west_bound_longitude"]`, `klv_meta["pt3_south_bound_latitude"]`
or `klv_meta["pt1_north_bound_latitude"]` raises `KeyError` when the field is
absent. -/
def assemble_image_metadata (klv_meta : FieldMap) (width height : ℕ)
    (bands : List (ℕ × GimiBandData)) (gcp_id : ℕ → String) :
    Except AssembleErr GimiImageMetadata :=
  match get_angle klv_meta "pt3_east_bound_longitude",
        get_angle klv_meta "pt1_west_bound_longitude",
        get_angle klv_meta "pt3_south_bound_latitude",
        get_angle klv_meta "pt1_north_bound_latitude" with
  | some pt3_east_lon, some pt1_west_lon, some pt3_south_lat, some pt1_north_lat =>
    let x_resolution : ℚ := (pt3_east_lon - pt1_west_lon) / width
    let y_resolution : ℚ := (pt3_south_lat - pt1_north_lat) / height
    .ok
      { affine := Affine.from_gdal pt1_west_lon x_resolution 0 pt1_north_lat 0 y_resolution
        bands := bands
        bbox := shapely_box pt1_west_lon pt1_north_lat pt3_east_lon pt3_south_lat
        begin_position :=
          match lookupField klv_meta "begin_position" with
          | some (.timestamp t) => t
          | _ => none
        crs := 4326
        gcps :=
          [ ⟨0, 0, pt1_west_lon, pt1_north_lat, gcp_id 0⟩,
            ⟨0, width, pt3_east_lon, pt1_north_lat, gcp_id 1⟩,
            ⟨height, width, pt3_east_lon, pt3_south_lat, gcp_id 2⟩,
            ⟨height, 0, pt1_west_lon, pt3_south_lat, gcp_id 3⟩ ]
        height := height
        lower_right_lon := pt3_east_lon
        lower_right_lat := pt3_south_lat
        title :=
          match lookupField klv_meta "title" with
          | some (.str s) => s
          | _ => []
        upper_left_lon := pt1_west_lon
        upper_left_lat := pt1_north_lat
        width := width
        x_resolution := x_resolution
        y_resolution := y_resolution }
  | _, _, _, _ => .error .keyError

/-- `GimiMetadata`: the whole-file record (path and one record per frame). -/
structure GimiMetadata where
  path : String
  images : List GimiImageMetadata

/-! ## Virtual-raster generator (`src/gimirrai/reader.py`, `get_vrt`) -/

/-- Error raised by `get_vrt`: `indexError` models `metadata.images[0]` on an
empty list, `attributeError` models `vrt_xml_tree.find(...)` returning `None`
before `.text` is assigned. -/
inductive VrtErr
  | indexError
  | attributeError
deriving DecidableEq, Repr

/-- An `xml.etree.ElementTree` element: tag, insertion-ordered attributes,
optional text, children. -/
inductive Element
  | mk : String → List (String × String) → Option String → List Element → Element

/-- The element's tag. -/
def Element.tag : Element → String
  | .mk t _ _ _ => t

/-- The element's attributes. -/
def Element.attribs : Element → List (String × String)
  | .mk _ a _ _ => a

/-- The element's text. -/
def Element.text : Element → Option String
  | .mk _ _ tx _ => tx

/-- The element's children. -/
def Element.children : Element → List Element
  | .mk _ _ _ cs => cs

/-- Replace the text of the first element with the given tag in a sibling
list; `none` when no element matches. -/
def set_children_text (tagName newText : String) : List Element → Option (List Element)
  | [] => none
  | c :: cs =>
    if c.tag = tagName then some (.mk c.tag c.attribs (some newText) c.children :: cs)
    else
      match set_children_text tagName newText cs with
      | some cs' => some (c :: cs')
      | none => none

/-- Replace the text of the first direct child with the given tag, modelling
`tree.find(tagName).text = newText`; `none` when no such child exists (in
which case Python raises `AttributeError`). -/
def set_child_text (el : Element) (tagName newText : String) : Option Element :=
  match el with
  | .mk t a tx cs =>
    match set_children_text tagName newText cs with
    | some cs' => some (.mk t a tx cs')
    | none => none

/-- Append a child element, modelling `etree.SubElement(parent, ...)` followed
by populating the new element. -/
def append_child (el : Element) (child : Element) : Element :=
  match el with
  | .mk t a tx cs => .mk t a tx (cs ++ [child])

/-- Serialize an attribute list as ` key="value"` pairs in insertion order. -/
def serialize_attribs (attrs : List (String × String)) : String :=
  attrs.foldl (fun acc kv => acc ++ " " ++ kv.1 ++ "=" ++ "\"" ++ kv.2 ++ "\"") ""

mutual

/-- Serialize an element tree to its XML byte string, modelling
`etree.tostring`. -/
def serialize_element : Element → String
  | .mk t a tx cs =>
    "<" ++ t ++ serialize_attribs a ++ ">" ++ (match tx with | some s => s | none => "") ++
      serialize_children cs ++ "</" ++ t ++ ">"

/-- Serialize a list of sibling elements in order. -/
def serialize_children : List Element → String
  | [] => ""
  | c :: cs => serialize_element c ++ serialize_children cs

end

/-- Render a rational the way the source renders a float coefficient with
`str(...)` (the exact rendering is irrelevant to the properties below; it is
a fixed function of the value). -/
def ratStr (q : ℚ) : String := toString q

/-- The `<GCP>` element appended for one ground control point, with the
attribute assignments in source order. -/
def gcp_element (gcp : GroundControlPoint) : Element :=
  .mk "GCP"
    [ ("Id", gcp.id), ("Pixel", toString gcp.col), ("Line", toString gcp.row),
      ("X", ratStr gcp.x), ("Y", ratStr gcp.y) ]
    none []

/-- `get_vrt`: generate the VRT XML string for a `GimiMetadata` record.
`crs_wkt_of` models `rasterio.crs.CRS.from_epsg(code).wkt` and
`boundless_vrt_doc` the parsed XML document obtained from
`rasterio.vrt._boundless_vrt_doc` for the reference raster: both are supplied
by the external raster library. The SRS text is replaced with the CRS
well-known text, the geotransform text with the comma-joined GDAL
coefficients, and a `GCPList` element carrying the four ground control points
is appended before serializing. -/
def get_vrt (crs_wkt_of : ℕ → String) (boundless_vrt_doc : Element)
    (metadata : GimiMetadata) : Except VrtErr String :=
  match metadata.images with
  | [] => .error .indexError
  | img0 :: _ =>
    let crs_wkt := crs_wkt_of img0.crs
    match set_child_text boundless_vrt_doc "SRS" crs_wkt with
    | none => .error .attributeError
    | some tree1 =>
      match set_child_text tree1 "GeoTransform"
          (String.intercalate "," ((Affine.to_gdal img0.affine).map ratStr)) with
      | none => .error .attributeError
      | some tree2 =>
        let gcp_list : Element :=
          .mk "GCPList" [("Projection", crs_wkt)] none (img0.gcps.map gcp_element)
        .ok (serialize_element (append_child tree2 gcp_list))

/-! ## Helper lemmas -/

/-- Assigning a key makes it a member of the map. -/
theorem containsKey_insertField_self (m : FieldMap) (k : String) (v : FieldValue) :
    containsKey (insertField m k v) k = true := by
  induction m with
  | nil => simp [insertField, containsKey]
  | cons hd tl ih =>
    obtain ⟨k', v'⟩ := hd
    by_cases h : k' = k <;> simp [insertField, containsKey, h, ih]

/-- A key that is not a member of the map looks up to nothing. -/
theorem lookupField_eq_none_of_not_containsKey (m : FieldMap) (k : String)
    (h : containsKey m k = false) : lookupField m k = none := by
  induction m with
  | nil => simp [lookupField]
  | cons hd tl ih =>
    obtain ⟨k', v'⟩ := hd
    by_cases hk : k' = k
    · simp [containsKey, hk] at h
    · simp [containsKey, hk] at h
      simp [lookupField, hk, ih h]

/-- Unfolding of the decode loop when the checksum has not yet been found and
at least one iteration remains: the loop runs one body iteration. -/
theorem decode_loop_cons_step (fuel : ℕ) (buff : List ℕ) (result : FieldMap) (it : ℕ)
    (hres : containsKey result "checksum" = false) :
    decode_loop (fuel + 1) buff result it =
      match decode_step buff result with
      | .done r => (r, it)
      | .next buff' result' => decode_loop fuel buff' result' (it + 1) := by
  rw [decode_loop]
  simp [hres]

/-- When the cursor sits on a decodable checksum field — tag byte 1, a
short-form length byte, and exactly the two bytes `struct.unpack` needs
obtainable from the remainder — the loop decodes it, stores it, and exits
normally on the next condition check. -/
theorem decode_loop_checksum (fuel len : ℕ) (rest : List ℕ) (result : FieldMap) (it : ℕ)
    (hres : containsKey result "checksum" = false) (hlen : len < 128)
    (htake : (rest.take len).length = 2) :
    decode_loop (fuel + 1) (1 :: len :: rest) result it =
      (.ok (insertField result "checksum" (FieldValue.uint (beNat (rest.take len)))), it + 1) := by
  rw [decode_loop_cons_step _ _ _ _ hres]
  have hstep : decode_step (1 :: len :: rest) result =
      .next (rest.drop len) (insertField result "checksum" (FieldValue.uint (beNat (rest.take len)))) := by
    simp [decode_step, TAG_FORMATS, hlen, htake, calcsize, unpack_value, apply_decoder]
  rw [hstep]
  dsimp only
  rw [decode_loop.eq_def]
  simp [containsKey_insertField_self]

/-- The final iteration counter never exceeds its starting value plus the
remaining fuel. -/
theorem decode_loop_snd_le (fuel : ℕ) :
    ∀ buff result it, (decode_loop fuel buff result it).2 ≤ it + fuel := by
  induction fuel with
  | zero =>
    intro buff result it
    rw [decode_loop.eq_def]
    split <;> simp
  | succ fuel ih =>
    intro buff result it
    rw [decode_loop.eq_def]
    split
    · simp
    · cases h : decode_step buff result with
      | done r => simp
      | next buff' result' =>
        dsimp only
        calc (decode_loop fuel buff' result' (it + 1)).2 ≤ (it + 1) + fuel := ih _ _ _
          _ = it + (fuel + 1) := by omega

/-! ## Claims -/

/-- The decoded field map of the fixed synthetic scenario:
`pt1 = (lon = -10, lat = 50)`, `pt3 = (lon = 10, lat = 40)`. -/
def sample_klv_map : FieldMap :=
  [ ("pt1_west_bound_longitude", FieldValue.angle (-10)),
    ("pt1_north_bound_latitude", FieldValue.angle 50),
    ("pt3_east_bound_longitude", FieldValue.angle 10),
    ("pt3_south_bound_latitude", FieldValue.angle 40) ]

/-- C1: for a decoded field map with `pt1 = (lon = -10, lat = 50)` and
`pt3 = (lon = 10, lat = 40)` and pixel dimensions 1000 × 800, the
georeference assembler produces `x_resolution = (lower_right_lon -
upper_left_lon) / width = 0.02`, `y_resolution = (lower_right_lat -
upper_left_lat) / height = -0.0125`, and an affine transform whose origin
(`c`, `f` coefficients) is `(-10, 50)` with zero rotation terms (`b`, `d`
coefficients). -/
theorem georeference_sample_resolutions :
    ∃ rec, assemble_image_metadata sample_klv_map 1000 800 [] (fun _ => "gcp-id") = .ok rec ∧
      rec.x_resolution = (rec.lower_right_lon - rec.upper_left_lon) / 1000 ∧
      rec.y_resolution = (rec.lower_right_lat - rec.upper_left_lat) / 800 ∧
      rec.x_resolution = 0.02 ∧ rec.y_resolution = -0.0125 ∧
      rec.affine.c = -10 ∧ rec.affine.f = 50 ∧ rec.affine.b = 0 ∧ rec.affine.d = 0 := by
  refine ⟨_, rfl, by norm_num, by norm_num, by norm_num, by norm_num, ?_, ?_, ?_, ?_⟩ <;> decide

/-- C2 counterexample: a buffer whose `begin_position` payload (the uint64
18446744073709551615, far beyond `datetime.max`) overflows the timestamp
transform, yet the returned map does contain an entry named
`"begin_position"` (holding the absent value) — refuting the claim that the
map has no entry for that field name. -/
theorem overflowed_timestamp_entry_present :
    decode_metadata [2, 8, 255, 255, 255, 255, 255, 255, 255, 255, 1, 2, 0, 0] =
      .ok [("begin_position", FieldValue.timestamp none), ("checksum", FieldValue.uint 0)] ∧
    MAX_TIMESTAMP < beNat [255, 255, 255, 255, 255, 255, 255, 255] ∧
    containsKey [("begin_position", FieldValue.timestamp none), ("checksum", FieldValue.uint 0)]
        "begin_position" = true := by
  exact ⟨by decide, by decide, by decide⟩

/-- C2 (amended): when a `begin_position` field's raw microsecond payload is
out of the representable range, the transform fails softly and the decoder
stores the absent value under `"begin_position"`: decoding continues with the
rest of the buffer and a result map in which the `begin_position` key is
present, mapped to the absent timestamp, rather than the entry being
omitted. -/
theorem overflowed_timestamp_stored_absent (b rest : List ℕ) (fuel : ℕ)
    (result : FieldMap) (it : ℕ)
    (hlen : b.length = 8) (hover : MAX_TIMESTAMP < beNat b)
    (hres : containsKey result "checksum" = false) :
    decode_loop (fuel + 1) (2 :: 8 :: (b ++ rest)) result it =
      decode_loop fuel rest
        (insertField result "begin_position" (FieldValue.timestamp none)) (it + 1) ∧
    containsKey (insertField result "begin_position" (FieldValue.timestamp none))
        "begin_position" = true := by
  constructor
  · rw [decode_loop_cons_step _ _ _ _ hres]
    have htake : (b ++ rest).take 8 = b := by
      rw [← hlen]
      exact List.take_left b rest
    have hdrop : (b ++ rest).drop 8 = rest := by
      rw [← hlen]
      exact List.drop_left b rest
    have hts : decode_timestamp (beNat b) = none := by
      unfold decode_timestamp
      rw [if_neg]
      omega
    have hstep : decode_step (2 :: 8 :: (b ++ rest)) result =
        .next rest (insertField result "begin_position" (FieldValue.timestamp none)) := by
      simp [decode_step, TAG_FORMATS, htake, hdrop, hlen, calcsize, unpack_value,
        apply_decoder, hts]
    rw [hstep]
  · exact containsKey_insertField_self _ _ _

/-- C2 witness: the amended statement instantiated on the concrete overflow
buffer. -/
theorem overflowed_timestamp_stored_absent_witness :
    decode_loop (999 + 1)
        (2 :: 8 :: ([255, 255, 255, 255, 255, 255, 255, 255] ++ [1, 2, 0, 0])) [] 0 =
      decode_loop 999 [1, 2, 0, 0]
        (insertField [] "begin_position" (FieldValue.timestamp none)) (0 + 1) ∧
    containsKey (insertField [] "begin_position" (FieldValue.timestamp none))
        "begin_position" = true :=
  overflowed_timestamp_stored_absent [255, 255, 255, 255, 255, 255, 255, 255] [1, 2, 0, 0]
    999 [] 0 (by decide) (by decide) (by decide)

/-- C3: a buffer consisting of one unknown tag byte (id < 128, not in
`TAG_FORMATS`) followed immediately by a well-formed checksum field (tag 1,
length 2, two value bytes) decodes to a map containing exactly the checksum
entry; the unknown tag contributes nothing. -/
theorem unknown_tag_contributes_nothing (u v1 v2 : ℕ)
    (hu : u < 128) (hunknown : TAG_FORMATS u = none) :
    decode_metadata [u, 1, 2, v1, v2] = .ok [("checksum", FieldValue.uint (256 * v1 + v2))] := by
  unfold decode_metadata
  have h1000 : (1000 : ℕ) = 999 + 1 := rfl
  rw [h1000, decode_loop_cons_step 999 [u, 1, 2, v1, v2] [] 0 (by decide)]
  have hstep : decode_step [u, 1, 2, v1, v2] [] = .next [1, 2, v1, v2] [] := by
    simp [decode_step, hu, hunknown]
  rw [hstep]
  dsimp only
  have h999 : (999 : ℕ) = 998 + 1 := rfl
  rw [h999, decode_loop_checksum 998 2 [v1, v2] [] 1 (by decide) (by decide) (by simp)]
  simp [insertField, beNat]

/-- C3 witness: the unknown tag 4 followed by a checksum field with value
bytes 0 and 7. -/
theorem unknown_tag_contributes_nothing_witness :
    decode_metadata [4, 1, 2, 0, 7] = .ok [("checksum", FieldValue.uint 7)] :=
  unknown_tag_contributes_nothing 4 0 7 (by decide) (by decide)

/-- C4: the latitude transform maps a raw integer `v` to exactly
`v * 180 / 4294967294` degrees and the longitude transform maps it to exactly
`v * 360 / 4294967294` degrees (denominator 4294967294 = 2^32 - 2), the
arithmetic being exact in `ℚ`. -/
theorem angle_transforms_formula (v : ℤ) :
    decode_latitude_coordinate v = (v : ℚ) * 180 / 4294967294 ∧
    decode_longitude_coordinate v = (v : ℚ) * 360 / 4294967294 := by
  unfold decode_latitude_coordinate decode_longitude_coordinate
  constructor <;> ring

/-- C5: first, for every input buffer the decode loop executes at most 1000
iterations (the final `num_iterations` counter of a full run never exceeds
1000); second, whenever the loop, with iterations still available, reaches a
state whose cursor sits on a decodable checksum field (tag byte 1, short-form
length byte, the two bytes `struct.unpack` needs obtainable from the
remainder), the decoder terminates normally after that one iteration and the
returned map contains a `"checksum"` entry. -/
theorem iteration_bound_and_checksum_termination :
    (∀ buff : List ℕ, (decode_loop 1000 buff [] 0).2 ≤ 1000) ∧
    (∀ (fuel len : ℕ) (rest : List ℕ) (result : FieldMap) (it : ℕ),
      containsKey result "checksum" = false → len < 128 → (rest.take len).length = 2 →
      ∃ m, decode_loop (fuel + 1) (1 :: len :: rest) result it = (.ok m, it + 1) ∧
        containsKey m "checksum" = true) := by
  constructor
  · intro buff
    simpa using decode_loop_snd_le 1000 buff [] 0
  · intro fuel len rest result it h1 h2 h3
    exact ⟨_, decode_loop_checksum fuel len rest result it h1 h2 h3,
      containsKey_insertField_self _ _ _⟩

/-- C5 witness: the bound on a concrete buffer, and normal termination with a
checksum entry on the buffer `[1, 2, 7, 7]` from the initial state. -/
theorem iteration_bound_and_checksum_termination_witness :
    ((decode_loop 1000 [1, 2, 7, 7] [] 0).2 ≤ 1000) ∧
    (∃ m, decode_loop (999 + 1) (1 :: 2 :: [7, 7]) [] 0 = (.ok m, 0 + 1) ∧
      containsKey m "checksum" = true) :=
  ⟨iteration_bound_and_checksum_termination.1 [1, 2, 7, 7],
   iteration_bound_and_checksum_termination.2 999 2 [7, 7] [] 0 (by decide) (by decide)
     (by decide)⟩

/-- C6: whenever the assembler succeeds, it builds exactly 4 ground control
points mapping the pixel corners `(0,0)`, `(width,0)`, `(width,height)`,
`(0,height)` (as column/row pairs) to the geographic corners: both top points
carry the pt1 (north-bound) latitude, both bottom points the pt3 (south-bound)
latitude; the top-left point carries the pt1 longitude and the bottom-right
point the pt3 corner. -/
theorem gcps_map_pixel_corners (klv_meta : FieldMap) (width height : ℕ)
    (bands : List (ℕ × GimiBandData)) (gcp_id : ℕ → String)
    (pt1_lon pt1_lat pt3_lon pt3_lat : ℚ)
    (h1 : get_angle klv_meta "pt1_west_bound_longitude" = some pt1_lon)
    (h2 : get_angle klv_meta "pt1_north_bound_latitude" = some pt1_lat)
    (h3 : get_angle klv_meta "pt3_east_bound_longitude" = some pt3_lon)
    (h4 : get_angle klv_meta "pt3_south_bound_latitude" = some pt3_lat) :
    ∃ rec, assemble_image_metadata klv_meta width height bands gcp_id = .ok rec ∧
      rec.gcps =
        [ ⟨0, 0, pt1_lon, pt1_lat, gcp_id 0⟩,
          ⟨0, width, pt3_lon, pt1_lat, gcp_id 1⟩,
          ⟨height, width, pt3_lon, pt3_lat, gcp_id 2⟩,
          ⟨height, 0, pt1_lon, pt3_lat, gcp_id 3⟩ ] := by
  simp only [assemble_image_metadata, h1, h2, h3, h4]
  exact ⟨_, rfl, rfl⟩

/-- C6 witness: in the fixed synthetic scenario pixel `(0,0)` maps to
`(-10, 50)` and pixel `(1000,800)` maps to `(10, 40)`. -/
theorem gcps_map_pixel_corners_witness :
    ∃ rec, assemble_image_metadata sample_klv_map 1000 800 [] (fun _ => "gcp-id") = .ok rec ∧
      rec.gcps =
        [ ⟨0, 0, -10, 50, "gcp-id"⟩,
          ⟨0, 1000, 10, 50, "gcp-id"⟩,
          ⟨800, 1000, 10, 40, "gcp-id"⟩,
          ⟨800, 0, -10, 40, "gcp-id"⟩ ] :=
  gcps_map_pixel_corners sample_klv_map 1000 800 [] (fun _ => "gcp-id")
    (-10) 50 10 40 (by decide) (by decide) (by decide) (by decide)

/-- C7: if any of the required fields `pt1_west_bound_longitude`,
`pt1_north_bound_latitude`, `pt3_east_bound_longitude`,
`pt3_south_bound_latitude` is absent from the decoded field map, the
assembler fails for that frame with an error: no record is produced and no
default value is substituted. -/
theorem missing_required_field_fails (klv_meta : FieldMap) (width height : ℕ)
    (bands : List (ℕ × GimiBandData)) (gcp_id : ℕ → String)
    (h : containsKey klv_meta "pt1_west_bound_longitude" = false ∨
         containsKey klv_meta "pt1_north_bound_latitude" = false ∨
         containsKey klv_meta "pt3_east_bound_longitude" = false ∨
         containsKey klv_meta "pt3_south_bound_latitude" = false) :
    assemble_image_metadata klv_meta width height bands gcp_id = .error .keyError := by
  have key : ∀ k, containsKey klv_meta k = false → get_angle klv_meta k = none := by
    intro k hk
    unfold get_angle
    rw [lookupField_eq_none_of_not_containsKey _ _ hk]
  rcases h with h | h | h | h <;>
    have hnone := key _ h <;>
    cases hA : get_angle klv_meta "pt3_east_bound_longitude" <;>
    cases hB : get_angle klv_meta "pt1_west_bound_longitude" <;>
    cases hC : get_angle klv_meta "pt3_south_bound_latitude" <;>
    cases hD : get_angle klv_meta "pt1_north_bound_latitude" <;>
    simp_all [assemble_image_metadata]

/-- C7 witness: on the empty field map the assembler fails with the key
error. -/
theorem missing_required_field_fails_witness :
    assemble_image_metadata [] 1 1 [] (fun _ => "gcp-id") = .error .keyError :=
  missing_required_field_fails [] 1 1 [] (fun _ => "gcp-id") (Or.inl (by decide))

/-- C8 counterexample: the buffer `[1, 10, 0, 7]` declares a field length of
10 but ends after only 2 value bytes, yet the decoder does not fail: the 2
remaining bytes are exactly what the checksum wire format needs, so
`struct.unpack` succeeds and the decode returns normally — refuting the claim
that every such truncated buffer produces an error. -/
theorem truncated_declared_length_accepted :
    decode_metadata [1, 10, 0, 7] = .ok [("checksum", FieldValue.uint 7)] ∧
    ([0, 7] : List ℕ).length < 10 := by
  exact ⟨by decide, by decide⟩

/-- C8 (amended): when the buffer ends before supplying a tag byte or a
length byte the loop reads, the decoder fails with a struct error; and when
the buffer ends before supplying the bytes a declared short-form field length
requires, it fails with a struct error unless the remaining bytes number
exactly the fixed byte-width of the field's wire format (in which case the
value is built from those in-bounds bytes, as the counterexample shows). -/
theorem truncated_buffer_errors (fuel : ℕ) (result : FieldMap) (it : ℕ)
    (tag size : ℕ) (rest : List ℕ) (name : String) (format_ : WireFormat)
    (decoder : DecoderKind)
    (hres : containsKey result "checksum" = false) :
    ((decode_loop (fuel + 1) [] result it).1 = .error .structError) ∧
    (tag < 128 → TAG_FORMATS tag = some (name, format_, decoder) →
      (decode_loop (fuel + 1) [tag] result it).1 = .error .structError) ∧
    (tag < 128 → TAG_FORMATS tag = some (name, format_, decoder) → size < 128 →
      rest.length < size → rest.length ≠ calcsize format_ size →
      (decode_loop (fuel + 1) (tag :: size :: rest) result it).1 = .error .structError) := by
  refine ⟨?_, ?_, ?_⟩
  · rw [decode_loop_cons_step _ _ _ _ hres]
    simp [decode_step]
  · intro ht hf
    rw [decode_loop_cons_step _ _ _ _ hres]
    simp [decode_step, ht, hf]
  · intro ht hf hs hshort hneq
    rw [decode_loop_cons_step _ _ _ _ hres]
    have htake : (rest.take size).length = rest.length := by
      rw [List.length_take]
      omega
    have hstep : decode_step (tag :: size :: rest) result = .done (.error .structError) := by
      simp [decode_step, ht, hf, hs, htake, hneq]
    rw [hstep]

/-- C8 witness: the amended statement instantiated on the empty buffer, on a
buffer ending after the checksum tag byte, and on a checksum field whose
declared length 2 is met by only one remaining byte. -/
theorem truncated_buffer_errors_witness :
    ((decode_loop 1000 [] [] 0).1 = .error .structError) ∧
    ((decode_loop 1000 [1] [] 0).1 = .error .structError) ∧
    ((decode_loop 1000 [1, 2, 0] [] 0).1 = .error .structError) :=
  have h := truncated_buffer_errors 999 [] 0 1 2 [0] "checksum" .H .dNone (by decide)
  ⟨h.1, h.2.1 (by decide) (by decide), h.2.2 (by decide) (by decide) (by decide)
    (by decide) (by decide)⟩

/-- C9: virtual-raster generation is deterministic in its inputs — two runs
of the generator on the same `GimiMetadata` record (including its ground
control points and their identifiers) and the same reference descriptor
(parsed reference document and CRS well-known-text source, both supplied by
the external raster library) produce identical XML output. In the embedding
the generator is a pure function of exactly these inputs, so equal inputs
give byte-identical output. -/
theorem get_vrt_deterministic (crs_wkt_of1 crs_wkt_of2 : ℕ → String)
    (doc1 doc2 : Element) (m1 m2 : GimiMetadata)
    (hf : crs_wkt_of1 = crs_wkt_of2) (hd : doc1 = doc2) (hm : m1 = m2) :
    get_vrt crs_wkt_of1 doc1 m1 = get_vrt crs_wkt_of2 doc2 m2 := by
  rw [hf, hd, hm]

/-- A reference VRT document as parsed from the external raster library, with
the `SRS` and `GeoTransform` children `get_vrt` rewrites. -/
def sample_vrt_doc : Element :=
  .mk "VRTDataset" [("rasterXSize", "1000"), ("rasterYSize", "800")] none
    [ .mk "SRS" [] (some "placeholder") [], .mk "GeoTransform" [] (some "placeholder") [] ]

/-- The assembled record of the fixed synthetic scenario, with concrete
ground-control-point identifiers. -/
def sample_image_record : GimiImageMetadata :=
  { affine := Affine.from_gdal (-10) (1 / 50) 0 50 0 (-1 / 80)
    bands := []
    bbox := shapely_box (-10) 50 10 40
    begin_position := none
    crs := 4326
    gcps :=
      [ ⟨0, 0, -10, 50, "gcp-a"⟩, ⟨0, 1000, 10, 50, "gcp-b"⟩,
        ⟨800, 1000, 10, 40, "gcp-c"⟩, ⟨800, 0, -10, 40, "gcp-d"⟩ ]
    height := 800
    lower_right_lon := 10
    lower_right_lat := 40
    title := []
    upper_left_lon := -10
    upper_left_lat := 50
    width := 1000
    x_resolution := 1 / 50
    y_resolution := -1 / 80 }

/-- C9 witness: two runs on a concrete record and reference document give the
same XML string. -/
theorem get_vrt_deterministic_witness :
    get_vrt (fun code => "EPSG-WKT-" ++ toString code) sample_vrt_doc
        ⟨"sample.heif", [sample_image_record]⟩ =
      get_vrt (fun code => "EPSG-WKT-" ++ toString code) sample_vrt_doc
        ⟨"sample.heif", [sample_image_record]⟩ :=
  get_vrt_deterministic _ _ _ _ _ _ rfl rfl rfl

/-- C10: for every assembled frame, the bounding polygon is constructed with
its `miny` argument equal to the pt1 north-bound latitude and its `maxy`
argument equal to the pt3 south-bound latitude; hence whenever the north
bound exceeds the south bound, the polygon is built with `miny` greater than
`maxy`, inverting the y-extent relative to the upper-left/lower-right
convention of the affine transform. -/
theorem bbox_y_extent_inverted (klv_meta : FieldMap) (width height : ℕ)
    (bands : List (ℕ × GimiBandData)) (gcp_id : ℕ → String)
    (rec : GimiImageMetadata) (n s : ℚ)
    (hok : assemble_image_metadata klv_meta width height bands gcp_id = .ok rec)
    (hn : get_angle klv_meta "pt1_north_bound_latitude" = some n)
    (hs : get_angle klv_meta "pt3_south_bound_latitude" = some s) :
    rec.bbox.miny = n ∧ rec.bbox.maxy = s ∧ (s < n → rec.bbox.maxy < rec.bbox.miny) := by
  cases hA : get_angle klv_meta "pt3_east_bound_longitude" <;>
  cases hB : get_angle klv_meta "pt1_west_bound_longitude" <;>
    simp_all [assemble_image_metadata, shapely_box]
  subst hok
  simp [shapely_box]

/-- C10 witness: in the fixed synthetic scenario the polygon is built with
`miny = 50` and `maxy = 40`, so `maxy < miny`. -/
theorem bbox_y_extent_inverted_witness :
    ∃ rec, assemble_image_metadata sample_klv_map 1000 800 [] (fun _ => "gcp-id") = .ok rec ∧
      rec.bbox.miny = 50 ∧ rec.bbox.maxy = 40 ∧ rec.bbox.maxy < rec.bbox.miny := by
  refine ⟨_, rfl, ?_⟩
  have h := bbox_y_extent_inverted sample_klv_map 1000 800 [] (fun _ => "gcp-id") _ 50 40
    rfl (by decide) (by decide)
  exact ⟨h.1, h.2.1, h.2.2 (by norm_num)⟩
